import Mathlib

/-!
# Project Apex telemetry validation service — shallow embedding

A shallow embedding of the Project Apex edge telemetry validation service
(`src/production_validator_service_prod.py`, with the throttled validation
worker of `demo/production_validator_service_v3.py` and the packet writer of
`src/simulation/production_atlas_bridge.py`), together with proofs checking
the natural-language specification against it.

Modelling conventions:
* Python floats in the rule engine are modelled as rationals (`ℚ`); all the
  engine thresholds and the concrete scenario values are exactly
  representable, so the branch structure is unaffected.
* Wire-level 34-byte packets are modelled as `List Nat` of byte values; the
  IEEE-754 fields travel as their raw little-endian bit patterns, which is
  exactly what `struct.pack`/`struct.unpack` move, so round-trip equality on
  bit patterns is IEEE-754 bit-exact equality.
* Python exceptions are modelled as explicit alternative results
  (`Except`, dedicated inductives for the failure points of each loop body).
-/

namespace Apex

/-! ## Production configuration (`production_validator_service_prod.py`, lines 54-62)

The environment-sourced configuration surface of the production service.
Note that it has exactly four entries and in particular no TLS-verification
toggle. -/

def PLACEHOLDER_TOKEN : String := "REPLACE_WITH_SECURE_TOKEN"

def DEFAULT_SPLUNK_HEC_URL : String :=
  "https://splunk-hec.mclaren.internal:8088/services/collector/event"

structure Config where
  splunk_hec_url : String
  splunk_token : String
  listen_ip : String
  listen_port : Nat
  deriving DecidableEq, Repr

def defaultConfig : Config :=
  { splunk_hec_url := DEFAULT_SPLUNK_HEC_URL
    splunk_token := PLACEHOLDER_TOKEN
    listen_ip := "0.0.0.0"
    listen_port := 20777 }

/-! ## Physics constants (lines 60-62) -/

def CAR_MASS_KG : ℚ := 798
def THERMAL_THRESHOLD_C : ℚ := 105
def ENERGY_LIMIT_J : ℚ := 100

/-- `calculate_vertical_energy` (line 80-81): `0.5 * CAR_MASS_KG * (vz ** 2)`. -/
def calculate_vertical_energy (vz : ℚ) : ℚ :=
  1/2 * CAR_MASS_KG * vz ^ 2

/-! ## Rule engine (`processing_worker`, lines 140-151)

The worker initialises `compliance_status = "LEGAL"`, `thermal_mode =
"STANDARD"` and then mutates them; the if/elif ladder below reproduces the
reachable final values of the pair `(compliance_status, thermal_mode)`. -/

def STATUS_LEGAL : String := "LEGAL"
def STATUS_VIOLATION_RISK : String := "VIOLATION_RISK"
def STATUS_CRITICAL : String := "CRITICAL: TORQUE_ANOMALY"
def MODE_STANDARD : String := "STANDARD"
def MODE_HIGH_COMPRESSION : String := "HIGH_COMPRESSION"

def apexPhysicsLogic (energy_joules engine_temp : ℚ) : String × String :=
  if engine_temp > THERMAL_THRESHOLD_C then
    if energy_joules > 80 then (STATUS_CRITICAL, MODE_HIGH_COMPRESSION)
    else (STATUS_LEGAL, MODE_HIGH_COMPRESSION)
  else
    if energy_joules > ENERGY_LIMIT_J then (STATUS_VIOLATION_RISK, MODE_STANDARD)
    else (STATUS_LEGAL, MODE_STANDARD)

/-! ## Spec-side verdict (specification §3, §4.2)

A second definition written from the specification's words, used only to
compare against `apexPhysicsLogic`: the spec names the three statuses
`LEGAL`, `VIOLATION_RISK`, `CRITICAL_THERMAL_SQUAT` and the two thermal modes
`STANDARD`, `HIGH_COMPRESSION`. -/

inductive ComplianceStatus where
  | LEGAL
  | VIOLATION_RISK
  | CRITICAL_THERMAL_SQUAT
  deriving DecidableEq, Repr

inductive ThermalMode where
  | STANDARD
  | HIGH_COMPRESSION
  deriving DecidableEq, Repr

/-- Modelled from the spec §4.2: thermal mode from `engine_temp_c`, then the
status from `energy_joules` with the mode-dependent strict limit. -/
def evaluateSpec (energy_joules engine_temp_c : ℚ) : ThermalMode × ComplianceStatus :=
  if engine_temp_c > 105 then
    (.HIGH_COMPRESSION, if energy_joules > 80 then .CRITICAL_THERMAL_SQUAT else .LEGAL)
  else
    (.STANDARD, if energy_joules > 100 then .VIOLATION_RISK else .LEGAL)

/-- Interpretation of the production status strings as the spec's status enum
(the code's `"CRITICAL: TORQUE_ANOMALY"` is the spec's critical status). -/
def statusOfCode (s : String) : Option ComplianceStatus :=
  if s = STATUS_LEGAL then some .LEGAL
  else if s = STATUS_VIOLATION_RISK then some .VIOLATION_RISK
  else if s = STATUS_CRITICAL then some .CRITICAL_THERMAL_SQUAT
  else none

/-- Interpretation of the production thermal-mode strings as the spec's enum. -/
def modeOfCode (s : String) : Option ThermalMode :=
  if s = MODE_STANDARD then some .STANDARD
  else if s = MODE_HIGH_COMPRESSION then some .HIGH_COMPRESSION
  else none

/-! ## Packet codec

Wire format `<d10sffff` (little-endian): 8-byte `timestamp` (f64), 10-byte
null-padded `vehicle_id`, then four 4-byte f32 fields; 34 bytes total.
The float fields are carried as their raw bit patterns (`Nat` below), which
is all `struct.pack`/`struct.unpack` read or write. -/

/-- A decoded telemetry reading at the wire level: float fields as their
little-endian IEEE-754 bit patterns, identifier as its raw bytes after null
stripping. -/
structure TelemetryReading where
  timestamp : Nat
  vehicle_id : List Nat
  speed_kph : Nat
  ride_height_mm : Nat
  vertical_velocity : Nat
  engine_temp_c : Nat
  deriving DecidableEq, Repr

/-- `w` little-endian bytes of `n` (the byte serialisation `struct` performs
on a field whose bit pattern is `n`). -/
def natToBytesLE : Nat → Nat → List Nat
  | 0, _ => []
  | w + 1, n => n % 256 :: natToBytesLE w (n / 256)

/-- Read back a little-endian byte list as a bit pattern. -/
def bytesToNatLE : List Nat → Nat
  | [] => 0
  | b :: bs => b + 256 * bytesToNatLE bs

/-- `bytes.ljust(10, b'\x00')` of `production_atlas_bridge.py` lines 85/88:
pad the identifier on the right with null bytes to 10 bytes. -/
def ljust10 (id : List Nat) : List Nat :=
  id ++ List.replicate (10 - id.length) 0

/-- Python's `.strip('\x00')` (line 134 of the validator): remove null bytes
from both ends of the identifier field. -/
def stripNulls (bs : List Nat) : List Nat :=
  (bs.rdropWhile (· == 0)).dropWhile (· == 0)

/-- `struct.pack('<d10sffff', ...)` (`production_atlas_bridge.py` line 85):
timestamp, padded identifier, then the four f32 fields, all little-endian. -/
def encode (r : TelemetryReading) : List Nat :=
  natToBytesLE 8 r.timestamp ++
    (ljust10 r.vehicle_id ++
      (natToBytesLE 4 r.speed_kph ++
        (natToBytesLE 4 r.ride_height_mm ++
          (natToBytesLE 4 r.vertical_velocity ++ natToBytesLE 4 r.engine_temp_c))))

inductive DecodeError where
  | BadLength
  deriving DecidableEq, Repr

/-- The decode step of `processing_worker` (lines 126-138): the exact-length
gate (`len(data) == struct.calcsize('<d10sffff')`, i.e. 34), the `<d10sffff`
unpack at the fixed offsets, and the null strip on the identifier. A datagram
of any other length is rejected without reading any field. -/
def decode (data : List Nat) : Except DecodeError TelemetryReading :=
  if data.length = 34 then
    .ok
      { timestamp := bytesToNatLE (data.take 8)
        vehicle_id := stripNulls ((data.drop 8).take 10)
        speed_kph := bytesToNatLE ((data.drop 18).take 4)
        ride_height_mm := bytesToNatLE ((data.drop 22).take 4)
        vertical_velocity := bytesToNatLE ((data.drop 26).take 4)
        engine_temp_c := bytesToNatLE ((data.drop 30).take 4) }
  else
    .error .BadLength

/-- A valid reading in the round-trip sense of §8: fields are genuine f64/f32
bit patterns and the identifier is printable ASCII of at most 10 bytes. -/
def ValidReading (r : TelemetryReading) : Prop :=
  r.timestamp < 256 ^ 8 ∧
  r.speed_kph < 256 ^ 4 ∧
  r.ride_height_mm < 256 ^ 4 ∧
  r.vertical_velocity < 256 ^ 4 ∧
  r.engine_temp_c < 256 ^ 4 ∧
  r.vehicle_id.length ≤ 10 ∧
  ∀ b ∈ r.vehicle_id, 32 ≤ b ∧ b ≤ 126

instance (r : TelemetryReading) : Decidable (ValidReading r) := by
  unfold ValidReading; infer_instance

/-! ## Bounded ingest queue (lines 66, 196-208)

`PACKET_QUEUE = queue.Queue(maxsize=2048)`; the producer uses
`put_nowait`, and on `queue.Full` drops the new datagram (tail drop) after a
rate-limited warning. The queue contents are modelled as a list, oldest
first. -/

def QUEUE_CAPACITY : Nat := 2048

/-- `PACKET_QUEUE.put_nowait(data)` with the producer's `except queue.Full`
handler: append when below capacity, otherwise drop the new datagram and
leave the queue unchanged (the producer never blocks). -/
def put_nowait {α : Type} (q : List α) (x : α) : List α :=
  if q.length < QUEUE_CAPACITY then q ++ [x] else q

/-- Enqueue a burst of datagrams in arrival order while no consumer runs. -/
def enqueue_all {α : Type} (q : List α) (xs : List α) : List α :=
  xs.foldl put_nowait q

/-! ## Forwarder (`send_to_splunk`, lines 83-113)

The call-relevant state is the pair of module-level log-throttle timestamps;
the network outcome of `http_session.post` is an input (`HttpResult`), since
it is decided by the environment. The function records which HTTP request, if
any, it issued. -/

structure LogThrottle where
  last_success_log_time : ℚ
  last_error_log_time : ℚ
  deriving DecidableEq, Repr

/-- Outcome of the `http_session.post` call as seen by `send_to_splunk`:
an HTTP status code, or a raised exception (timeout, connection refused). -/
inductive HttpResult where
  | status (code : Nat)
  | exn
  deriving DecidableEq, Repr

/-- The nested `event` object of the Splunk payload (lines 160-168). -/
structure SplunkEvent where
  car_id : String
  speed_kph : Int
  vertical_energy : ℚ
  engine_temp_c : ℚ
  rear_rh_mm : ℚ
  compliance_status : String
  thermal_mode : String
  deriving DecidableEq, Repr

/-- The Splunk HEC payload (lines 154-169). -/
structure SplunkPayload where
  time : ℚ
  host : String
  source : String
  sourcetype : String
  index : String
  event : SplunkEvent
  deriving DecidableEq, Repr

/-- The outbound request as built on line 96:
`http_session.post(SPLUNK_HEC_URL, json=payload, verify=False, timeout=0.5)`.
`verify` is the literal keyword argument — there is no configuration input
that could change it. -/
structure HttpRequest where
  url : String
  json : SplunkPayload
  verify : Bool
  timeout : ℚ
  deriving DecidableEq, Repr

def splunk_post_request (url : String) (payload : SplunkPayload) : HttpRequest :=
  { url := url, json := payload, verify := false, timeout := 1/2 }

/-- What one call to `send_to_splunk` did: the request it issued (`none` when
no POST was performed), whether it wrote a warning/error log line, and the
updated throttle timestamps. -/
structure SendEffect where
  request : Option HttpRequest
  warned : Bool
  logState : LogThrottle
  deriving DecidableEq, Repr

/-- `send_to_splunk` (lines 83-113). The security gate on the placeholder
token returns before any network activity; otherwise the POST is attempted
and every outcome — 200, non-200, raised exception — is handled in place with
rate-limited logging. -/
def send_to_splunk (token url : String) (payload : SplunkPayload) (now : ℚ)
    (st : LogThrottle) (net : HttpResult) : SendEffect :=
  if token = PLACEHOLDER_TOKEN then
    if now - st.last_error_log_time ≥ 5 then
      { request := none, warned := true, logState := { st with last_error_log_time := now } }
    else
      { request := none, warned := false, logState := st }
  else
    let req := splunk_post_request url payload
    match net with
    | .status code =>
      if code = 200 then
        if now - st.last_success_log_time ≥ 60 then
          { request := some req, warned := false
            logState := { st with last_success_log_time := now } }
        else
          { request := some req, warned := false, logState := st }
      else
        if now - st.last_error_log_time ≥ 5 then
          { request := some req, warned := true
            logState := { st with last_error_log_time := now } }
        else
          { request := some req, warned := false, logState := st }
    | .exn =>
      if now - st.last_error_log_time ≥ 5 then
        { request := some req, warned := true
          logState := { st with last_error_log_time := now } }
      else
        { request := some req, warned := false, logState := st }

/-! ## Worker loop body (`processing_worker`, lines 116-177)

One iteration of the consumer loop. Every Python-level failure point is an
explicit input: the queue `get` may time out (`except queue.Empty:
continue`), the identifier's UTF-8 decode may raise (caught by the outer
`except Exception`), and the network call's outcome is arbitrary (handled
inside `send_to_splunk`). The unpacked float values are abstracted as
rationals, since `struct.unpack` on a 34-byte input cannot itself raise. -/

/-- Result of `PACKET_QUEUE.get(timeout=1.0)`. -/
inductive QueueGetResult where
  | empty
  | item (data : List Nat)
  deriving DecidableEq, Repr

/-- Result of `unpacked[1].decode('utf-8').strip('\x00')`: the identifier
string, or a raised `UnicodeDecodeError`. -/
inductive Utf8Result where
  | ok (car_id : String)
  | err
  deriving DecidableEq, Repr

/-- How one loop iteration ended. `crashed` is the outcome the code must
never produce: an exception escaping the loop body. -/
inductive WorkerOutcome where
  | continueLoop
  | crashed
  deriving DecidableEq, Repr

/-- The value-level content of a 34-byte datagram once unpacked (IEEE-754
bit patterns read back as numbers; abstracted as rationals). -/
structure UnpackedValues where
  timestamp : ℚ
  speed : ℚ
  ride_height : ℚ
  vert_vel : ℚ
  engine_temp : ℚ
  deriving DecidableEq, Repr

/-- `round(x, 2)` on the enriched fields (Python rounds half to even; the
difference only matters exactly at half-cent values, which no claim touches). -/
def round2 (x : ℚ) : ℚ := (round (x * 100) : ℚ) / 100

/-- `round(x, 1)`. -/
def round1 (x : ℚ) : ℚ := (round (x * 10) : ℚ) / 10

/-- The Splunk payload built on lines 154-169. -/
def build_event (car_id : String) (v : UnpackedValues) (energy : ℚ)
    (status mode : String) : SplunkPayload :=
  { time := v.timestamp
    host := "mtc-edge-node"
    source := "atlas_edge_bridge"
    sourcetype := "mcl_telemetry"
    index := "project_apex"
    event :=
      { car_id := car_id
        speed_kph := round v.speed
        vertical_energy := round2 energy
        engine_temp_c := round1 v.engine_temp
        rear_rh_mm := round2 v.ride_height
        compliance_status := status
        thermal_mode := mode } }

/-- What one worker iteration did. -/
structure WorkerStep where
  outcome : WorkerOutcome
  forwarded : Bool
  logState : LogThrottle
  deriving DecidableEq, Repr

/-- One iteration of `processing_worker` (lines 118-177): queue timeout
continues the loop; a wrong-length datagram is discarded (`task_done`,
`continue`) without being parsed; a UTF-8 failure is caught by the
`except Exception` handler and the loop continues; otherwise the engine runs
and the enriched event is handed to `send_to_splunk`, whose own handlers
swallow every network outcome. -/
def processing_worker_iteration (g : QueueGetResult) (u : Utf8Result)
    (v : UnpackedValues) (token url : String) (now : ℚ) (st : LogThrottle)
    (net : HttpResult) : WorkerStep :=
  match g with
  | .empty => { outcome := .continueLoop, forwarded := false, logState := st }
  | .item data =>
    if data.length = 34 then
      match u with
      | .err => { outcome := .continueLoop, forwarded := false, logState := st }
      | .ok car_id =>
        let energy_joules := calculate_vertical_energy v.vert_vel
        let sm := apexPhysicsLogic energy_joules v.engine_temp
        let payload := build_event car_id v energy_joules sm.1 sm.2
        let eff := send_to_splunk token url payload now st net
        { outcome := .continueLoop, forwarded := true, logState := eff.logState }
    else
      { outcome := .continueLoop, forwarded := false, logState := st }

/-! ## Producer loop body and startup (`main`, lines 180-215) -/

/-- Result of `sock.recvfrom(1024)` as seen by the producer's handlers. -/
inductive RecvResult where
  | datagram (d : List Nat)
  | keyboardInterrupt
  | exn
  deriving DecidableEq, Repr

/-- How one producer iteration ended; only `KeyboardInterrupt` breaks the
loop, and nothing crashes it. -/
inductive MainOutcome where
  | continueLoop
  | breakLoop
  | crashed
  deriving DecidableEq, Repr

/-- One iteration of the producer's `while True` loop (lines 196-215):
a received datagram is enqueued with tail drop on `queue.Full`;
`KeyboardInterrupt` breaks; any other exception continues the loop. -/
def main_loop_iteration (r : RecvResult) (q : List (List Nat)) :
    MainOutcome × List (List Nat) :=
  match r with
  | .datagram d => (.continueLoop, put_nowait q d)
  | .keyboardInterrupt => (.breakLoop, q)
  | .exn => (.continueLoop, q)

/-- What startup (lines 183-194, before the receive loop) can produce. -/
inductive StartupResult where
  | enteredLoops
  | fatalBindError
  deriving DecidableEq, Repr

/-- Startup of `main`: bind the socket (the one operation that can fail
before the loops), set the receive buffer, start the worker thread, enter the
receive loop. No configuration value — in particular not the token — is
inspected. -/
def startup (_cfg : Config) (bindOk : Bool) : StartupResult :=
  if bindOk then .enteredLoops else .fatalBindError

/-! ## Throttled validation worker
(`demo/production_validator_service_v3.py`, lines 104-150)

The `ValidationWorker` variant is the one that implements the
forward-throttle: forward when the validator reports `CRITICAL`, or when the
time since the last forward exceeds `SPLUNK_UPDATE_INTERVAL` (0.1 s). -/

def SPLUNK_UPDATE_INTERVAL : ℚ := 1/10

def V3_STATUS_STABLE : String := "STABLE"
def V3_STATUS_CRITICAL : String := "CRITICAL"

/-- `InternalValidator.validate` (lines 105-114): energy is
`abs(rh * 1000)`, status `CRITICAL` when it exceeds 100, else `STABLE`. -/
def validate (ride_height_raw : ℚ) : String × ℚ :=
  let energy := |ride_height_raw * 1000|
  (if energy > 100 then V3_STATUS_CRITICAL else V3_STATUS_STABLE, energy)

structure V3WorkerState where
  last_sent_time : ℚ
  deriving DecidableEq, Repr

/-- Initial worker state: `self.last_sent_time = 0` (line 123). -/
def v3InitialState : V3WorkerState := { last_sent_time := 0 }

/-- The forwarding decision of `ValidationWorker.run` (lines 136-150):
send iff `is_critical or time_to_send`; on a send, `last_sent_time` is set to
the current time. Returns whether `send_event` was called and the new state. -/
def worker_decide (status : String) (current_time : ℚ) (st : V3WorkerState) :
    Bool × V3WorkerState :=
  if status = V3_STATUS_CRITICAL ∨
      current_time - st.last_sent_time > SPLUNK_UPDATE_INTERVAL then
    (true, { last_sent_time := current_time })
  else
    (false, st)

/-! ## Concrete sample data (used to instantiate universally quantified
theorems at explicit inputs) -/

/-- A concrete wire reading: identifier `"CAR_1"` as bytes, arbitrary valid
bit patterns in the float fields. -/
def sampleReading : TelemetryReading :=
  { timestamp := 123456789
    vehicle_id := [67, 65, 82, 95, 49]
    speed_kph := 5
    ride_height_mm := 66000
    vertical_velocity := 7
    engine_temp_c := 4000000000 }

/-- A concrete unpacked value record. -/
def sampleValues : UnpackedValues :=
  { timestamp := 1700000000, speed := 320, ride_height := 30
    vert_vel := 9/5, engine_temp := 110 }

/-- A concrete Splunk payload. -/
def samplePayload : SplunkPayload :=
  build_event "CAR_1" sampleValues (calculate_vertical_energy (9/5))
    STATUS_CRITICAL MODE_HIGH_COMPRESSION

/-! ## Helper lemmas -/

lemma length_natToBytesLE (w n : Nat) : (natToBytesLE w n).length = w := by
  induction w generalizing n with
  | zero => rfl
  | succ w ih => simp [natToBytesLE, ih]

lemma bytesToNatLE_natToBytesLE (w n : Nat) (h : n < 256 ^ w) :
    bytesToNatLE (natToBytesLE w n) = n := by
  induction w generalizing n with
  | zero =>
    interval_cases n
    rfl
  | succ w ih =>
    have hdiv : n / 256 < 256 ^ w := by
      rw [Nat.div_lt_iff_lt_mul (by norm_num)]
      calc n < 256 ^ (w + 1) := h
        _ = 256 ^ w * 256 := by ring
    simp only [natToBytesLE, bytesToNatLE, ih (n / 256) hdiv]
    omega

lemma ljust10_length (id : List Nat) (h : id.length ≤ 10) :
    (ljust10 id).length = 10 := by
  simp [ljust10, Nat.add_sub_cancel' h]

lemma dropWhile_eq_self_of_forall {p : Nat → Bool} {l : List Nat}
    (h : ∀ b ∈ l, p b = false) : l.dropWhile p = l := by
  cases l with
  | nil => rfl
  | cons a l => simp [List.dropWhile, h a (by simp)]

lemma rdropWhile_replicate_append {p : Nat → Bool} {z : Nat} (hz : p z = true)
    (l : List Nat) (k : Nat) :
    (l ++ List.replicate k z).rdropWhile p = l.rdropWhile p := by
  induction k with
  | zero => simp
  | succ k ih =>
    have : l ++ List.replicate (k + 1) z = (l ++ List.replicate k z) ++ [z] := by
      simp [List.replicate_succ' (n := k)]
    rw [this, List.rdropWhile_concat_pos _ _ _ hz, ih]

lemma rdropWhile_eq_self_of_forall {p : Nat → Bool} {l : List Nat}
    (h : ∀ b ∈ l, p b = false) : l.rdropWhile p = l := by
  rw [List.rdropWhile_eq_self_iff]
  intro hl
  exact fun hp => absurd (h _ (List.getLast_mem hl)) (by simp [hp])

lemma stripNulls_ljust10 (id : List Nat) (h : ∀ b ∈ id, 32 ≤ b ∧ b ≤ 126) :
    stripNulls (ljust10 id) = id := by
  have hz : ∀ b ∈ id, (b == 0) = false := by
    intro b hb
    have := (h b hb).1
    simp only [beq_eq_false_iff_ne, ne_eq]
    omega
  unfold stripNulls ljust10
  rw [rdropWhile_replicate_append (by simp) id _, rdropWhile_eq_self_of_forall hz,
    dropWhile_eq_self_of_forall hz]

section EncodeSplit

variable (r : TelemetryReading)

lemma encode_take_8 : (encode r).take 8 = natToBytesLE 8 r.timestamp := by
  unfold encode
  exact List.take_left' (length_natToBytesLE 8 r.timestamp)

lemma encode_drop_8 :
    (encode r).drop 8 =
      ljust10 r.vehicle_id ++
        (natToBytesLE 4 r.speed_kph ++
          (natToBytesLE 4 r.ride_height_mm ++
            (natToBytesLE 4 r.vertical_velocity ++ natToBytesLE 4 r.engine_temp_c))) := by
  unfold encode
  exact List.drop_left' (length_natToBytesLE 8 r.timestamp)

lemma encode_drop_18 (hid : r.vehicle_id.length ≤ 10) :
    (encode r).drop 18 =
      natToBytesLE 4 r.speed_kph ++
        (natToBytesLE 4 r.ride_height_mm ++
          (natToBytesLE 4 r.vertical_velocity ++ natToBytesLE 4 r.engine_temp_c)) := by
  have h : (encode r).drop 18 = ((encode r).drop 8).drop 10 := by
    rw [List.drop_drop]
  rw [h, encode_drop_8]
  exact List.drop_left' (ljust10_length r.vehicle_id hid)

lemma encode_drop_22 (hid : r.vehicle_id.length ≤ 10) :
    (encode r).drop 22 =
      natToBytesLE 4 r.ride_height_mm ++
        (natToBytesLE 4 r.vertical_velocity ++ natToBytesLE 4 r.engine_temp_c) := by
  have h : (encode r).drop 22 = ((encode r).drop 18).drop 4 := by
    rw [List.drop_drop]
  rw [h, encode_drop_18 r hid]
  exact List.drop_left' (length_natToBytesLE 4 r.speed_kph)

lemma encode_drop_26 (hid : r.vehicle_id.length ≤ 10) :
    (encode r).drop 26 =
      natToBytesLE 4 r.vertical_velocity ++ natToBytesLE 4 r.engine_temp_c := by
  have h : (encode r).drop 26 = ((encode r).drop 22).drop 4 := by
    rw [List.drop_drop]
  rw [h, encode_drop_22 r hid]
  exact List.drop_left' (length_natToBytesLE 4 r.ride_height_mm)

lemma encode_drop_30 (hid : r.vehicle_id.length ≤ 10) :
    (encode r).drop 30 = natToBytesLE 4 r.engine_temp_c := by
  have h : (encode r).drop 30 = ((encode r).drop 26).drop 4 := by
    rw [List.drop_drop]
  rw [h, encode_drop_26 r hid]
  exact List.drop_left' (length_natToBytesLE 4 r.vertical_velocity)

lemma encode_length (hid : r.vehicle_id.length ≤ 10) : (encode r).length = 34 := by
  unfold encode
  simp [length_natToBytesLE, ljust10_length r.vehicle_id hid]

end EncodeSplit

section QueueLemmas

variable {α : Type}

lemma enqueue_all_of_fits (xs : List α) :
    ∀ q : List α, q.length + xs.length ≤ QUEUE_CAPACITY →
      enqueue_all q xs = q ++ xs := by
  induction xs with
  | nil => intro q _; simp [enqueue_all]
  | cons x xs ih =>
    intro q h
    have hlt : q.length < QUEUE_CAPACITY := by
      simp only [List.length_cons] at h; omega
    have hput : put_nowait q x = q ++ [x] := by simp [put_nowait, hlt]
    have hrec : enqueue_all (q ++ [x]) xs = (q ++ [x]) ++ xs := by
      apply ih
      simp only [List.length_append, List.length_singleton]
      simp only [List.length_cons] at h
      omega
    simp only [enqueue_all, List.foldl_cons, hput] at *
    rw [hrec, List.append_assoc]
    rfl

lemma enqueue_all_of_full (xs : List α) :
    ∀ q : List α, QUEUE_CAPACITY ≤ q.length → enqueue_all q xs = q := by
  induction xs with
  | nil => intro q _; rfl
  | cons x xs ih =>
    intro q h
    have hput : put_nowait q x = q := by
      simp [put_nowait, Nat.not_lt.mpr h]
    simp only [enqueue_all, List.foldl_cons, hput] at *
    exact ih q h

/-- Starting from an empty queue, a burst of at least `QUEUE_CAPACITY`
datagrams leaves exactly the first `QUEUE_CAPACITY` of them: drop-new. -/
lemma enqueue_all_nil_take (xs : List α) (h : QUEUE_CAPACITY ≤ xs.length) :
    enqueue_all ([] : List α) xs = xs.take QUEUE_CAPACITY := by
  have hsplit : xs = xs.take QUEUE_CAPACITY ++ xs.drop QUEUE_CAPACITY :=
    (List.take_append_drop _ xs).symm
  have hlen : (xs.take QUEUE_CAPACITY).length = QUEUE_CAPACITY := by
    simp [List.length_take, Nat.min_eq_left h]
  have happ : ∀ (q ys zs : List α),
      enqueue_all q (ys ++ zs) = enqueue_all (enqueue_all q ys) zs := by
    intro q ys zs
    simp [enqueue_all, List.foldl_append]
  have hfits : enqueue_all ([] : List α) (xs.take QUEUE_CAPACITY)
      = xs.take QUEUE_CAPACITY := by
    have := enqueue_all_of_fits (xs.take QUEUE_CAPACITY) [] (by simp [hlen])
    simpa using this
  calc enqueue_all ([] : List α) xs
      = enqueue_all (enqueue_all [] (xs.take QUEUE_CAPACITY)) (xs.drop QUEUE_CAPACITY) := by
        conv_lhs => rw [hsplit]
        exact happ _ _ _
    _ = enqueue_all (xs.take QUEUE_CAPACITY) (xs.drop QUEUE_CAPACITY) := by rw [hfits]
    _ = xs.take QUEUE_CAPACITY := enqueue_all_of_full _ _ (le_of_eq hlen.symm)

end QueueLemmas

/-! ## Claim C1 — the compliance verdict is a pure function of
`(energy_joules, engine_temp_c)` -/

/-- Claim C1: the status/mode pair computed by `processing_worker` agrees, as
a pure function of `(energy_joules, engine_temp_c)`, with the specification's
decision table `evaluateSpec` under the status-name interpretation
(`statusOfCode`/`modeOfCode`, where the code's `"CRITICAL: TORQUE_ANOMALY"`
string is the spec's `CRITICAL_THERMAL_SQUAT`): temperature strictly above
105 selects `HIGH_COMPRESSION` with the strict 80 J limit, otherwise
`STANDARD` with the strict 100 J limit; the interpretation always succeeds
(`some _`), so every reading is classified by exactly one of the two
branches. Boundary instances: temperature exactly 105 yields `STANDARD`, and
energy exactly at a limit yields `LEGAL` in either branch. -/
theorem compliance_status_pure_function (e t : ℚ) :
    statusOfCode (apexPhysicsLogic e t).1 = some (evaluateSpec e t).2 ∧
    modeOfCode (apexPhysicsLogic e t).2 = some (evaluateSpec e t).1 ∧
    (apexPhysicsLogic e 105).2 = MODE_STANDARD ∧
    (apexPhysicsLogic 80 110).1 = STATUS_LEGAL ∧
    (apexPhysicsLogic 100 90).1 = STATUS_LEGAL := by
  refine ⟨?_, ?_, ?_, ?_, ?_⟩
  · unfold apexPhysicsLogic evaluateSpec THERMAL_THRESHOLD_C ENERGY_LIMIT_J
    split_ifs <;>
      simp [statusOfCode, STATUS_LEGAL, STATUS_VIOLATION_RISK, STATUS_CRITICAL]
  · unfold apexPhysicsLogic evaluateSpec THERMAL_THRESHOLD_C ENERGY_LIMIT_J
    split_ifs <;> simp [modeOfCode, MODE_STANDARD, MODE_HIGH_COMPRESSION]
  · unfold apexPhysicsLogic THERMAL_THRESHOLD_C
    norm_num
    split_ifs <;> rfl
  · unfold apexPhysicsLogic THERMAL_THRESHOLD_C
    norm_num
  · unfold apexPhysicsLogic THERMAL_THRESHOLD_C ENERGY_LIMIT_J
    norm_num

/-! ## Claim C2 — derived energy -/

/-- Claim C2: `calculate_vertical_energy` is `0.5 * 798 * vz^2`, is
non-negative for every input, and on the end-to-end scenario
`vz = 1.8, engine_temp = 110` yields exactly `1292.76 J`, thermal mode
`HIGH_COMPRESSION` and the critical status. -/
theorem vertical_energy_formula_and_scenario (vz : ℚ) :
    calculate_vertical_energy vz = 1/2 * 798 * vz ^ 2 ∧
    0 ≤ calculate_vertical_energy vz ∧
    calculate_vertical_energy (9/5) = 129276/100 ∧
    apexPhysicsLogic (calculate_vertical_energy (9/5)) 110
      = (STATUS_CRITICAL, MODE_HIGH_COMPRESSION) := by
  refine ⟨?_, ?_, ?_, ?_⟩
  · unfold calculate_vertical_energy CAR_MASS_KG
    norm_num
  · unfold calculate_vertical_energy CAR_MASS_KG
    positivity
  · norm_num [calculate_vertical_energy, CAR_MASS_KG]
  · norm_num [apexPhysicsLogic, calculate_vertical_energy, CAR_MASS_KG,
      THERMAL_THRESHOLD_C]

/-! ## Claim C3 — length gate of the decoder -/

/-- Claim C3: a datagram whose length is not exactly 34 bytes is rejected by
`decode` with `BadLength` — no field is read — and conversely any decoded
reading came from an input of exactly 34 bytes. -/
theorem decode_rejects_bad_length (data : List Nat) :
    (data.length ≠ 34 → decode data = .error .BadLength) ∧
    (∀ r, decode data = .ok r → data.length = 34) := by
  constructor
  · intro h
    unfold decode
    rw [if_neg h]
  · intro r h
    by_contra hne
    unfold decode at h
    rw [if_neg hne] at h
    exact Except.noConfusion h

/-- Witness for C3: the empty datagram is rejected with `BadLength`. -/
theorem decode_rejects_bad_length_witness :
    decode ([] : List Nat) = .error .BadLength :=
  (decode_rejects_bad_length []).1 (by decide)

/-! ## Claim C4 — codec round-trip -/

/-- Claim C4: for every valid reading (genuine f64/f32 bit patterns,
printable-ASCII identifier of at most 10 bytes), decoding the `<d10sffff`
encoding returns the reading unchanged, bit-exactly on the float fields. -/
theorem decode_encode_roundtrip (r : TelemetryReading) (h : ValidReading r) :
    decode (encode r) = .ok r := by
  obtain ⟨hts, hsp, hrh, hvv, het, hid, hascii⟩ := h
  unfold decode
  rw [if_pos (encode_length r hid)]
  cases r with
  | mk ts id sp rh vv et =>
    simp only [Except.ok.injEq, TelemetryReading.mk.injEq]
    refine ⟨?_, ?_, ?_, ?_, ?_, ?_⟩
    · rw [encode_take_8, bytesToNatLE_natToBytesLE 8 ts hts]
    · rw [encode_drop_8,
        List.take_left' (ljust10_length id hid),
        stripNulls_ljust10 id hascii]
    · rw [encode_drop_18 _ hid,
        List.take_left' (length_natToBytesLE 4 sp),
        bytesToNatLE_natToBytesLE 4 sp hsp]
    · rw [encode_drop_22 _ hid,
        List.take_left' (length_natToBytesLE 4 rh),
        bytesToNatLE_natToBytesLE 4 rh hrh]
    · rw [encode_drop_26 _ hid,
        List.take_left' (length_natToBytesLE 4 vv),
        bytesToNatLE_natToBytesLE 4 vv hvv]
    · rw [encode_drop_30 _ hid,
        List.take_of_length_le (le_of_eq (length_natToBytesLE 4 et)),
        bytesToNatLE_natToBytesLE 4 et het]

/-- Witness for C4: the round-trip at a concrete valid reading. -/
theorem decode_encode_roundtrip_witness :
    ValidReading sampleReading ∧ decode (encode sampleReading) = .ok sampleReading :=
  ⟨by decide, decode_encode_roundtrip sampleReading (by decide)⟩

/-! ## Claim C5 — bounded queue overload policy

The claim is refuted as stated: with the drop-new (tail drop) policy of the
producer, a burst of `capacity + k` datagrams retains the *first* `capacity`
arrivals, so the most recent arrival is exactly the one that is *not*
present. -/

/-- Counterexample to C5 as stated: enqueue the 2049 distinct datagrams
`0, 1, …, 2048` into the empty 2048-capacity queue; the most recent arrival
is `2048`, and it is not among the retained items. -/
theorem queue_most_recent_item_dropped :
    (List.range 2049).getLast? = some 2048 ∧
    2048 ∉ enqueue_all ([] : List Nat) (List.range 2049) := by
  constructor
  · rw [List.range_succ]
    exact List.getLast?_concat _
  · rw [enqueue_all_nil_take _ (by simp [QUEUE_CAPACITY]),
      show QUEUE_CAPACITY = 2048 from rfl, List.take_range]
    simp

/-- Claim C5 (amended): enqueueing `capacity + k` datagrams (`k ≥ 1`) while no
consumer runs retains exactly `capacity` items — the *first* `capacity`
arrivals in FIFO order, so the most recent arrival is dropped; once full,
each newly arriving datagram is discarded immediately
(`put_nowait` on a full queue is the identity, so the producer never waits
for space). -/
theorem queue_tail_drop_retains_first_capacity {α : Type} (xs : List α)
    (k : Nat) (hk : 1 ≤ k) (hlen : xs.length = QUEUE_CAPACITY + k) :
    enqueue_all ([] : List α) xs = xs.take QUEUE_CAPACITY ∧
    (enqueue_all ([] : List α) xs).length = QUEUE_CAPACITY ∧
    ∀ (q : List α) (x : α), q.length = QUEUE_CAPACITY → put_nowait q x = q := by
  have hge : QUEUE_CAPACITY ≤ xs.length := by omega
  refine ⟨enqueue_all_nil_take xs hge, ?_, ?_⟩
  · rw [enqueue_all_nil_take xs hge]
    simp [List.length_take, Nat.min_eq_left hge]
  · intro q x hq
    simp [put_nowait, hq]

/-- Witness for C5 (amended), at the burst `0, 1, …, 2048` with `k = 1`. -/
theorem queue_tail_drop_retains_first_capacity_witness :
    enqueue_all ([] : List Nat) (List.range 2049)
        = (List.range 2049).take QUEUE_CAPACITY ∧
    (enqueue_all ([] : List Nat) (List.range 2049)).length = QUEUE_CAPACITY ∧
    ∀ (q : List Nat) (x : Nat), q.length = QUEUE_CAPACITY → put_nowait q x = q :=
  queue_tail_drop_retains_first_capacity (List.range 2049) 1 (by norm_num)
    (by simp [QUEUE_CAPACITY])

/-! ## Claim C6 — forward throttle of the validation worker
(`demo/production_validator_service_v3.py`) -/

/-- Claim C6: the `ValidationWorker` forwarding decision: a reading whose
validator status is not the nominal (`LEGAL`-equivalent) `"STABLE"` is always
forwarded, with no condition on timing; a nominal reading is forwarded only
when the time since the last forward exceeds `SPLUNK_UPDATE_INTERVAL`
(0.1 s); and in the concrete scenario of two nominal readings 10 ms apart
starting from the initial worker state, exactly the first is forwarded, while
a `"CRITICAL"` reading always forwards regardless of state. -/
theorem forward_throttle_behavior (t0 : ℚ) (h : SPLUNK_UPDATE_INTERVAL < t0) :
    (∀ (rh t : ℚ) (st : V3WorkerState), (validate rh).1 ≠ V3_STATUS_STABLE →
        (worker_decide (validate rh).1 t st).1 = true) ∧
    (∀ (t : ℚ) (st : V3WorkerState),
        (worker_decide V3_STATUS_STABLE t st).1 = true →
        t - st.last_sent_time > SPLUNK_UPDATE_INTERVAL) ∧
    (worker_decide V3_STATUS_STABLE t0 v3InitialState).1 = true ∧
    (worker_decide V3_STATUS_STABLE (t0 + 1/100)
        (worker_decide V3_STATUS_STABLE t0 v3InitialState).2).1 = false ∧
    (∀ (t : ℚ) (st : V3WorkerState),
        (worker_decide V3_STATUS_CRITICAL t st).1 = true) := by
  have hne : ¬ (V3_STATUS_STABLE = V3_STATUS_CRITICAL) := by
    simp [V3_STATUS_STABLE, V3_STATUS_CRITICAL]
  have hfirst : worker_decide V3_STATUS_STABLE t0 v3InitialState
      = (true, { last_sent_time := t0 }) := by
    unfold worker_decide v3InitialState
    rw [if_pos]
    right
    simpa using h
  refine ⟨?_, ?_, ?_, ?_, ?_⟩
  · intro rh t st hne2
    unfold validate at hne2 ⊢
    by_cases hcrit : |rh * 1000| > 100
    · simp only [hcrit, if_true]
      unfold worker_decide
      rw [if_pos (Or.inl rfl)]
    · simp only [hcrit, if_false] at hne2
      exact absurd rfl hne2
  · intro t st hsent
    unfold worker_decide at hsent
    by_cases hc : V3_STATUS_STABLE = V3_STATUS_CRITICAL ∨
        t - st.last_sent_time > SPLUNK_UPDATE_INTERVAL
    · rcases hc with hc | hc
      · exact absurd hc hne
      · exact hc
    · rw [if_neg hc] at hsent
      exact absurd hsent (by simp)
  · rw [hfirst]
  · rw [hfirst]
    unfold worker_decide SPLUNK_UPDATE_INTERVAL
    rw [if_neg]
    rintro (hc | hc)
    · exact hne hc
    · norm_num at hc
  · intro t st
    unfold worker_decide
    rw [if_pos (Or.inl rfl)]

/-- Witness for C6, at `t0 = 1` (first nominal reading at 1 s, second 10 ms
later, throttle interval 0.1 s): first forwarded, second suppressed. -/
theorem forward_throttle_behavior_witness :
    (worker_decide V3_STATUS_STABLE 1 v3InitialState).1 = true ∧
    (worker_decide V3_STATUS_STABLE (1 + 1/100)
        (worker_decide V3_STATUS_STABLE 1 v3InitialState).2).1 = false :=
  ⟨(forward_throttle_behavior 1 (by norm_num [SPLUNK_UPDATE_INTERVAL])).2.2.1,
   (forward_throttle_behavior 1 (by norm_num [SPLUNK_UPDATE_INTERVAL])).2.2.2.1⟩

/-! ## Claim C7 — placeholder token at startup

The claim is refuted: `main` inspects no configuration value before entering
the loops — the token is checked only inside `send_to_splunk`, on every
forward. -/

/-- Counterexample to C7 as stated: with the default configuration, whose
token is still the placeholder, startup with a successful socket bind enters
the processing loops instead of failing. -/
theorem placeholder_token_startup_not_fatal :
    defaultConfig.splunk_token = PLACEHOLDER_TOKEN ∧
    startup defaultConfig true = .enteredLoops := ⟨rfl, rfl⟩

/-- Claim C7 (amended): a missing or placeholder token is not checked at
startup — startup succeeds whenever the socket bind succeeds, for every
configuration — and the misconfiguration is instead handled at each use of
the forwarder, where `send_to_splunk` with the placeholder token performs no
HTTP POST at all. -/
theorem placeholder_token_deferred_to_send (cfg : Config) :
    startup cfg true = .enteredLoops ∧
    startup cfg false = .fatalBindError ∧
    (∀ (url : String) (payload : SplunkPayload) (now : ℚ) (st : LogThrottle)
        (net : HttpResult),
      (send_to_splunk PLACEHOLDER_TOKEN url payload now st net).request = none) := by
  refine ⟨rfl, rfl, ?_⟩
  intro url payload now st net
  unfold send_to_splunk
  rw [if_pos rfl]
  split_ifs <;> rfl

/-! ## Claim C8 — TLS verification

The claim is refuted: the `http_session.post` call hard-codes
`verify=False`; the configuration surface has no TLS toggle, so verification
is disabled on every send without any explicit configuration choice. -/

/-- Counterexample to C8 as stated: under the default configuration (which
disables nothing — there is no TLS entry to set), the outbound request built
for the collector does not verify the server certificate. -/
theorem tls_not_verified_by_default :
    (splunk_post_request defaultConfig.splunk_hec_url samplePayload).verify
      = false := rfl

/-- The request field of a send is either absent or exactly the
`verify=False, timeout=0.5` POST to the collector URL. -/
lemma send_request_none_or_post (token url : String) (payload : SplunkPayload)
    (now : ℚ) (st : LogThrottle) (net : HttpResult) :
    (send_to_splunk token url payload now st net).request = none ∨
    (send_to_splunk token url payload now st net).request
      = some (splunk_post_request url payload) := by
  unfold send_to_splunk
  cases net <;> split_ifs <;> (try simp) <;> split_ifs <;> simp

/-- Claim C8 (amended): every request `send_to_splunk` issues, for every
token, URL, payload, time, throttle state and network outcome, carries
`verify = false` (and the strict 0.5 s timeout); TLS verification is
unconditionally disabled, with no configuration toggle. -/
theorem every_send_disables_tls (token url : String) (payload : SplunkPayload)
    (now : ℚ) (st : LogThrottle) (net : HttpResult) :
    (∀ req ∈ (send_to_splunk token url payload now st net).request,
      req.verify = false ∧ req.timeout = 1/2) ∧
    (splunk_post_request url payload).verify = false := by
  refine ⟨?_, rfl⟩
  intro req hreq
  rcases send_request_none_or_post token url payload now st net with h | h <;>
    rw [h] at hreq
  · simp at hreq
  · simp only [Option.mem_def, Option.some.injEq] at hreq
    subst hreq
    exact ⟨rfl, rfl⟩

/-- Witness for C8 (amended): a send with a real token and a 200 response
issues exactly the hard-coded `verify=False` request. -/
theorem every_send_disables_tls_witness :
    (splunk_post_request DEFAULT_SPLUNK_HEC_URL samplePayload).verify = false ∧
    (splunk_post_request DEFAULT_SPLUNK_HEC_URL samplePayload).timeout = 1/2 :=
  (every_send_disables_tls "tok" DEFAULT_SPLUNK_HEC_URL samplePayload 0 ⟨0, 0⟩
      (.status 200)).1 (splunk_post_request DEFAULT_SPLUNK_HEC_URL samplePayload)
    (by
      norm_num [send_to_splunk, PLACEHOLDER_TOKEN]
      rw [if_neg (by decide : ¬ ("tok" = "REPLACE_WITH_SECURE_TOKEN"))])

/-! ## Claim C9 — per-packet errors never terminate the loops -/

/-- Claim C9: no per-packet failure ends either loop: every worker iteration
— queue timeout, wrong-length datagram, identifier UTF-8 failure, any network
outcome — continues the loop; a wrong-length (decode-failure) datagram is
discarded without being forwarded; every producer iteration continues except
`KeyboardInterrupt` (a deliberate break), and none crashes; the only modelled
fatal error is the startup-time socket bind failure. -/
theorem loops_survive_per_packet_errors :
    (∀ (g : QueueGetResult) (u : Utf8Result) (v : UnpackedValues)
        (token url : String) (now : ℚ) (st : LogThrottle) (net : HttpResult),
      (processing_worker_iteration g u v token url now st net).outcome
        = .continueLoop) ∧
    (∀ (r : RecvResult) (q : List (List Nat)),
      (main_loop_iteration r q).1 ≠ .crashed) ∧
    (∀ (d : List Nat) (u : Utf8Result) (v : UnpackedValues)
        (token url : String) (now : ℚ) (st : LogThrottle) (net : HttpResult),
      d.length ≠ 34 →
      (processing_worker_iteration (.item d) u v token url now st net).forwarded
        = false) ∧
    (∀ cfg : Config, startup cfg false = .fatalBindError) := by
  refine ⟨?_, ?_, ?_, fun _ => rfl⟩
  · intro g u v token url now st net
    cases g with
    | empty => rfl
    | item data =>
      by_cases hlen : data.length = 34
      · cases u <;> simp [processing_worker_iteration, hlen]
      · simp [processing_worker_iteration, hlen]
  · intro r q
    cases r <;> simp [main_loop_iteration]
  · intro d u v token url now st net hlen
    simp [processing_worker_iteration, hlen]

/-- Witness for C9: a malformed (empty) datagram with a UTF-8 failure and a
network exception still yields a continuing, non-forwarding iteration. -/
theorem loops_survive_per_packet_errors_witness :
    (processing_worker_iteration (.item []) .err sampleValues
        PLACEHOLDER_TOKEN DEFAULT_SPLUNK_HEC_URL 0 ⟨0, 0⟩ .exn).forwarded
      = false :=
  (loops_survive_per_packet_errors).2.2.1 [] .err sampleValues
    PLACEHOLDER_TOKEN DEFAULT_SPLUNK_HEC_URL 0 ⟨0, 0⟩ .exn (by decide)

/-! ## Claim C10 — the placeholder-token security gate -/

/-- Claim C10: with the placeholder token configured, `send_to_splunk`
performs no HTTP POST for any payload — the event is discarded with at most a
rate-limited local warning (warned exactly when the 5 s cooldown has elapsed)
— and conversely any issued request implies a non-placeholder token. -/
theorem placeholder_token_never_posts (token url : String)
    (payload : SplunkPayload) (now : ℚ) (st : LogThrottle) (net : HttpResult) :
    (token = PLACEHOLDER_TOKEN →
      (send_to_splunk token url payload now st net).request = none) ∧
    ((send_to_splunk token url payload now st net).request.isSome →
      token ≠ PLACEHOLDER_TOKEN) ∧
    (token = PLACEHOLDER_TOKEN → now - st.last_error_log_time < 5 →
      (send_to_splunk token url payload now st net).warned = false) ∧
    (token = PLACEHOLDER_TOKEN → 5 ≤ now - st.last_error_log_time →
      (send_to_splunk token url payload now st net).warned = true) := by
  refine ⟨?_, ?_, ?_, ?_⟩
  · intro h
    unfold send_to_splunk
    rw [if_pos h]
    split_ifs <;> rfl
  · intro hsome h
    unfold send_to_splunk at hsome
    rw [if_pos h] at hsome
    split_ifs at hsome <;> simp_all
  · intro h hcool
    unfold send_to_splunk
    rw [if_pos h, if_neg (by exact not_le.mpr hcool)]
  · intro h hcool
    unfold send_to_splunk
    rw [if_pos h, if_pos hcool]

/-- Witness for C10: a concrete send under the placeholder token issues no
request and (within the cooldown) no warning. -/
theorem placeholder_token_never_posts_witness :
    (send_to_splunk PLACEHOLDER_TOKEN DEFAULT_SPLUNK_HEC_URL samplePayload 0
        ⟨0, 0⟩ .exn).request = none ∧
    (send_to_splunk PLACEHOLDER_TOKEN DEFAULT_SPLUNK_HEC_URL samplePayload 0
        ⟨0, 0⟩ .exn).warned = false :=
  ⟨(placeholder_token_never_posts PLACEHOLDER_TOKEN DEFAULT_SPLUNK_HEC_URL
      samplePayload 0 ⟨0, 0⟩ .exn).1 rfl,
   (placeholder_token_never_posts PLACEHOLDER_TOKEN DEFAULT_SPLUNK_HEC_URL
      samplePayload 0 ⟨0, 0⟩ .exn).2.2.1 rfl (by norm_num)⟩

end Apex
